import Mathlib

/-!
Shallow embedding of the hello-halo health subsystem and URL utilities,
with theorems checking the natural-language specification against the code.

Strings from the TypeScript source are modelled as `String` / `List Char`;
JavaScript truthiness of numbers (`0` is falsy) and of optional values is
made explicit where the source relies on it.
-/

namespace HelloHalo

/-! ## URL utilities (`src/main/openai-compat-router/utils/url.ts`) -/

/-- Provider tag accepted by `normalizeApiUrl`. -/
inductive Provider
  | anthropic
  | openai
  deriving DecidableEq, Repr

/-- `'/chat/completions'` as a character list. -/
def chatCompletionsSuffix : List Char := "/chat/completions".data

/-- `'/responses'` as a character list. -/
def responsesSuffix : List Char := "/responses".data

/-- `'/v1'` as a character list. -/
def v1Seg : List Char := "/v1".data

/-- `const trimSlash = (s) => s.replace(/\/+$/, '')`: drop trailing slashes. -/
def trimSlash (s : List Char) : List Char :=
  (s.reverse.dropWhile (fun c => c == '/')).reverse

/-- JS `String.prototype.slice(0, -suffix.length)` after an `endsWith` check:
strip the first matching partial suffix of `['/v1/chat', '/chat', '/v1/']`,
with `break` after the first hit. -/
def stripPartials (l : List Char) : List Char :=
  if ("/v1/chat".data).isSuffixOf l then l.take (l.length - 8)
  else if ("/chat".data).isSuffixOf l then l.take (l.length - 5)
  else if ("/v1/".data).isSuffixOf l then l.take (l.length - 4)
  else l

/-- JS `String.prototype.indexOf` for a pattern known to occur: index of the
first occurrence of `pat` in `l`. -/
def firstIdx (pat : List Char) : List Char → Nat
  | [] => 0
  | c :: rest => if pat.isPrefixOf (c :: rest) then 0 else firstIdx pat rest + 1

/-- JS `String.prototype.includes`: does `pat` occur as a contiguous run in `l`? -/
def hasInfix (pat : List Char) : List Char → Bool
  | [] => pat.isEmpty
  | c :: rest => pat.isPrefixOf (c :: rest) || hasInfix pat rest

/-- The OpenAI-compatible branch of `normalizeApiUrl`, applied to the already
slash-trimmed URL: return as-is when it already ends in a full endpoint,
otherwise strip partial suffixes, cut at / append `/v1`, and append
`/chat/completions`. -/
def openaiNormalize (normalized : List Char) : List Char :=
  if chatCompletionsSuffix.isSuffixOf normalized || responsesSuffix.isSuffixOf normalized then
    normalized
  else
    let n1 := stripPartials normalized
    let n2 :=
      if hasInfix v1Seg n1 then n1.take (firstIdx v1Seg n1 + 3)
      else n1 ++ v1Seg
    n2 ++ chatCompletionsSuffix

/-- `normalizeApiUrl(apiUrl, provider)` from `utils/url.ts`, over `List Char`. -/
def normalizeApiUrlL (apiUrl : List Char) (provider : Provider) : List Char :=
  match provider with
  | .anthropic => trimSlash apiUrl
  | .openai => openaiNormalize (trimSlash apiUrl)

/-- `normalizeApiUrl` over `String`, delegating to the `List Char` model. -/
def normalizeApiUrl (apiUrl : String) (provider : Provider) : String :=
  ⟨normalizeApiUrlL apiUrl.data provider⟩

/-! ## Shared health types (`src/main/services/health` and `shared/types`) -/

/-- `HealthStatus` from the health types. -/
inductive HealthStatus
  | healthy
  | degraded
  | unhealthy
  deriving DecidableEq, Repr, BEq

/-- `HealthEvent.category`. -/
inductive EventCategory
  | info
  | warning
  | critical
  deriving DecidableEq, Repr, BEq

/-- `HealthEvent` (the optional `data` payload is never read by the
orchestrator's handling path and is omitted). -/
structure HealthEvent where
  type : String
  category : EventCategory
  timestamp : Nat
  source : String
  message : String
  deriving DecidableEq, Repr

/-! ## Win32 platform process operations (`diagnostics/collector.ts`,
`Win32ProcessOps`) -/

/-- Environment of one `Win32ProcessOps.killProcess(pid, signal)` call:
whether the `taskkill` invocation completed without throwing, the OS error
text when it threw (locale-dependent, e.g. localized Windows messages), and
what `isProcessAlive(pid)` observes after the attempt. -/
structure KillEnv where
  execOk : Bool
  execErrMsg : String
  aliveAfter : Bool
  deriving DecidableEq, Repr

/-- `Win32ProcessOps.isProcessAlive(pid)`: `process.kill(pid, 0)` inside
try/catch — a total boolean probe that never throws. -/
def isProcessAlive (env : KillEnv) : Bool :=
  env.aliveAfter

/-- `Win32ProcessOps.killProcess(pid, signal)`: run `taskkill`; on an exec
error, verify via `isProcessAlive` and succeed when the process is gone,
throwing only when it is confirmed still alive. -/
def killProcess (env : KillEnv) (pid : Nat) : Except String Unit :=
  if env.execOk then Except.ok ()
  else if !(isProcessAlive env) then Except.ok ()
  else Except.error ("Failed to terminate process " ++ toString pid)

/-! ## Startup checker (`health-checker/startup-checker.ts`, from the unnamed
source part containing `runStartupChecks` / `safeProbe`) -/

/-- `ProbeResult.severity`. -/
inductive ProbeSeverity
  | critical
  | warning
  | info
  deriving DecidableEq, Repr, BEq

/-- `ProbeResult` (optional `data` payload omitted; it is not read by
`safeProbe` or `determineOverallStatus` beyond logging). -/
structure ProbeResult where
  name : String
  healthy : Bool
  severity : ProbeSeverity
  message : String
  timestamp : Nat
  deriving DecidableEq, Repr

/-- `withTimeout(promise, 10000)`: the underlying probe promise either settles
(`probeRun`) or loses the race against the timer, in which case the call
rejects with `Error('Timeout')`. -/
def withTimeout (timedOut : Bool) (probeRun : Except String ProbeResult) :
    Except String ProbeResult :=
  if timedOut then Except.error "Timeout" else probeRun

/-- `safeProbe(name, probeFn)`: await the probe under a 10s timeout; on any
rejection return the degraded-but-healthy default instead of throwing. -/
def safeProbe (name : String) (now : Nat) (timedOut : Bool)
    (probeRun : Except String ProbeResult) : ProbeResult :=
  match withTimeout timedOut probeRun with
  | Except.ok r => r
  | Except.error m =>
    { name := name
      healthy := true
      severity := ProbeSeverity.warning
      message := "Probe failed: " ++ m
      timestamp := now }

/-- Outcomes of the four startup probes plus timing, as seen by
`runStartupChecks`. -/
structure StartupEnv where
  now : Nat
  configTimedOut : Bool
  configRun : Except String ProbeResult
  portTimedOut : Bool
  portRun : Except String ProbeResult
  diskTimedOut : Bool
  diskRun : Except String ProbeResult
  processTimedOut : Bool
  processRun : Except String ProbeResult
  lastExitClean : Bool

/-- `StartupCheckResult`. -/
structure StartupCheckResult where
  status : HealthStatus
  probes : List ProbeResult
  duration : Nat
  timestamp : Nat

/-- `determineOverallStatus(probes)`. -/
def determineOverallStatus (probes : List ProbeResult) : HealthStatus :=
  if probes.any (fun p => !p.healthy && p.severity == ProbeSeverity.critical) then
    HealthStatus.unhealthy
  else if probes.any (fun p => !p.healthy && p.severity == ProbeSeverity.warning) then
    HealthStatus.degraded
  else
    HealthStatus.healthy

/-- `runStartupChecks()`: run the four probes through `safeProbe` and fold
their results into an overall status. -/
def runStartupChecks (env : StartupEnv) : StartupCheckResult :=
  let probes := [
    safeProbe "config" env.now env.configTimedOut env.configRun,
    safeProbe "port" env.now env.portTimedOut env.portRun,
    safeProbe "disk" env.now env.diskTimedOut env.diskRun,
    safeProbe "process" env.now env.processTimedOut env.processRun]
  { status := determineOverallStatus probes
    probes := probes
    duration := 0
    timestamp := env.now }

/-! ## Orchestrator (`src/main/services/health/orchestrator.ts`) -/

/-- Recovery strategy identifiers `S1`–`S4`. -/
inductive Strategy
  | S1
  | S2
  | S3
  | S4
  deriving DecidableEq, Repr

/-- The orchestrator's view of the recovery manager (`canRecover()` and
`selectRecoveryStrategy(failures, source)`), whose own code is external to
the orchestrator module. -/
structure RecoveryEnv where
  canRecover : Bool
  selectStrategy : Nat → String → Option Strategy

/-- The orchestrator-owned slice of `HealthSystemState` mutated by
`handleHealthEvent` (instanceId/startedAt are set once at init and never
touched by the handler). -/
structure OrchSys where
  status : HealthStatus
  consecutiveFailures : Nat
  recoveryAttempts : Nat
  isEnabled : Bool
  recentEvents : List HealthEvent

/-- The `recentEvents` ring update: `unshift` the new event, then `pop` the
oldest when the length exceeds 50. -/
def pushRecent (e : HealthEvent) (l : List HealthEvent) : List HealthEvent :=
  let l' := e :: l
  if 50 < l'.length then l'.dropLast else l'

/-- The recovery-trigger block inside the critical branch: when
`selectRecoveryStrategy` returns a strategy and `canRecover()` holds, the
synchronous prefix of `attemptRecovery`/`attemptRecoveryWithUI` increments
`recoveryAttempts`. -/
def criticalRecoveryStep (env : RecoveryEnv) (s : OrchSys) (source : String) : OrchSys :=
  match env.selectStrategy s.consecutiveFailures source, env.canRecover with
  | some _, true => { s with recoveryAttempts := s.recoveryAttempts + 1 }
  | _, _ => s

/-- `handleHealthEvent(event)`: the synchronous state update performed by the
orchestrator on one incoming event. The asynchronous continuation of
`attemptRecovery`/`attemptRecoveryWithUI` (which runs after the first `await`)
is not part of this step; its synchronous prefix — the `recoveryAttempts`
increment — is. -/
def handleHealthEvent (env : RecoveryEnv) (s : OrchSys) (e : HealthEvent) : OrchSys :=
  if !s.isEnabled then s
  else
    let s1 := { s with recentEvents := pushRecent e s.recentEvents }
    let s2 :=
      if e.category = EventCategory.info ∧
          (e.type = "recovery_success" ∨ e.type = "startup_check") then
        { s1 with consecutiveFailures := 0, status := HealthStatus.healthy }
      else s1
    let s3 :=
      if e.category = EventCategory.critical then
        criticalRecoveryStep env
          { s2 with consecutiveFailures := s2.consecutiveFailures + 1 } e.source
      else s2
    let newStatus :=
      if e.category = EventCategory.critical then HealthStatus.unhealthy
      else if e.category = EventCategory.warning ∧ s3.status = HealthStatus.healthy then
        HealthStatus.degraded
      else s3.status
    { s3 with status := newStatus }

/-- `MAX_SELF_FAILURES`. -/
def MAX_SELF_FAILURES : Nat := 5

/-- Orchestrator module state: the system state plus the separate
self-failure counter and the fallback-polling timer (modelled as a flag,
`pollIntervalId !== null`). -/
structure OrchState where
  sys : OrchSys
  selfFailures : Nat
  polling : Bool

/-- Post-initialization inputs to the orchestrator: an incoming health event
(`fault` marks an exception raised inside the handler's own try block, at its
entry) or the clean shutdown call. -/
inductive OrchInput where
  | event (e : HealthEvent) (fault : Bool)
  | shutdown

/-- `handleSelfError(error)`: count the internal failure and disable the
health system (including `stopFallbackPolling`) at the fixed threshold. -/
def handleSelfErrorStep (s : OrchState) : OrchState :=
  let n := s.selfFailures + 1
  if MAX_SELF_FAILURES ≤ n then
    { s with selfFailures := n, sys := { s.sys with isEnabled := false }, polling := false }
  else
    { s with selfFailures := n }

/-- One orchestrator step. A disabled orchestrator returns from
`handleHealthEvent` before its try block, so no event (faulting or not) can
change anything; `shutdownHealthSystem` stops polling. -/
def stepOrch (env : RecoveryEnv) (s : OrchState) : OrchInput → OrchState
  | OrchInput.event e fault =>
    if s.sys.isEnabled then
      if fault then handleSelfErrorStep s
      else { s with sys := handleHealthEvent env s.sys e }
    else s
  | OrchInput.shutdown => { s with polling := false }

/-- Fold a sequence of inputs through the orchestrator, in emission order. -/
def applyInputs (env : RecoveryEnv) (l : List OrchInput) (s : OrchState) : OrchState :=
  l.foldl (stepOrch env) s

/-! ## Process registry entries and spec-modelled registry operations -/

/-- `ProcessType`: the two managed child-process kinds, `'v2-session'` (the
spec's agent-session) and `'tunnel'`. -/
inductive ProcessType
  | v2Session
  | tunnel
  deriving DecidableEq, Repr, BEq

/-- `ProcessEntry` from the registry data model. -/
structure ProcessEntry where
  id : String
  pid : Option Nat
  type : ProcessType
  instanceId : String
  startedAt : Nat
  deriving DecidableEq, Repr

/-- Modelled from the spec: `unregisterProcess(id, type)` is an idempotent
remove on the persisted registry (§4.2); the registry module itself is not
among the provided sources. -/
def unregisterProcess (reg : List ProcessEntry) (id : String) (ty : ProcessType) :
    List ProcessEntry :=
  reg.filter (fun e => !(e.id == id && e.type == ty))

/-- Modelled from the spec: `getCurrentProcesses()` returns the entries
tagged with the current instance (§4.2); the registry module itself is not
among the provided sources. -/
def getCurrentProcesses (reg : List ProcessEntry) (inst : String) :
    List ProcessEntry :=
  reg.filter (fun e => e.instanceId == inst)

/-- Modelled from the spec: `getOrphanProcesses()` returns the entries tagged
with any other instance (§4.2); the registry module itself is not among the
provided sources. -/
def getOrphanProcesses (reg : List ProcessEntry) (inst : String) :
    List ProcessEntry :=
  reg.filter (fun e => !(e.instanceId == inst))

/-- Modelled from the spec: `clearOrphanEntries()` removes every orphan
registry entry, keeping exactly the current instance's entries (§4.3 — "all
orphan registry entries are removed after the pass"); the registry module
itself is not among the provided sources. -/
def clearOrphanEntries (reg : List ProcessEntry) (inst : String) :
    List ProcessEntry :=
  reg.filter (fun e => e.instanceId == inst)

/-! ## Runtime checker (`health-checker/runtime-checker.ts`) -/

/-- One row of a `findChildProcesses` (PPID scan) result. -/
structure ChildProc where
  pid : Nat
  ppid : Nat
  name : String
  deriving DecidableEq, Repr

/-- A settled service probe (`checkOpenAIRouter` / `checkHttpServer`) result:
`healthy`, plus the `data.responseTime` / `data.error` fields read by the
checker. -/
structure ServiceProbe where
  healthy : Bool
  responseTime : Option Nat
  error : Option String
  deriving DecidableEq, Repr

/-- Outcome of awaiting a service probe inside its try/catch. -/
inductive ProbeCall
  | ok (r : ServiceProbe)
  | exn (msg : String)
  deriving DecidableEq, Repr

/-- `ServiceCheckStatus`. -/
structure ServiceCheckStatus where
  port : Option Nat
  responsive : Bool
  responseTime : Option Nat
  error : Option String
  deriving DecidableEq, Repr

/-- `ProcessCheckStatus`. -/
structure ProcessCheckStatus where
  expected : Nat
  actual : Nat
  pids : List Nat
  healthy : Bool
  deriving DecidableEq, Repr

/-- The `registryCleanup` part of `ImmediateCheckResult`. -/
structure RegistryCleanup where
  removed : Nat
  orphans : Nat
  deriving DecidableEq, Repr

/-- `ImmediateCheckResult`. -/
structure ImmediateCheckResult where
  timestamp : Nat
  claude : ProcessCheckStatus
  cloudflared : ProcessCheckStatus
  openaiRouter : ServiceCheckStatus
  httpServer : ServiceCheckStatus
  issues : List String
  healthy : Bool
  registryCleanup : RegistryCleanup
  deriving DecidableEq, Repr

/-- External world as observed by one `doImmediateCheck()` run: the PPID scan
(resolving with `children` or throwing), `getRouterInfo()` (a port when the
router object exists), the router probe, `getServerInfo()`, the HTTP-server
probe, and the heap reading in MB. -/
structure CheckEnv where
  scanOk : Bool
  children : List ChildProc
  routerInfo : Option Nat
  routerProbe : ProbeCall
  serverRunning : Bool
  serverPort : Nat
  httpProbe : ProbeCall
  heapUsedMB : Nat

/-- JS `x || 'unknown'` on an optional error string. -/
def jsOr (s : Option String) (dflt : String) : String :=
  match s with
  | some v => if v == "" then dflt else v
  | none => dflt

/-- The dead-entry removal loop of step 3: for every registered entry of the
given type whose (truthy) PID is not among the live scanned PIDs, unregister
it and count it. -/
def removeDeadEntries (entries : List ProcessEntry) (live : List Nat)
    (ty : ProcessType) (reg : List ProcessEntry) : List ProcessEntry × Nat :=
  entries.foldl
    (fun acc e =>
      match e.pid with
      | some p =>
        if p != 0 && !(live.contains p) then
          (unregisterProcess acc.1 e.id ty, acc.2 + 1)
        else acc
      | none => acc)
    (reg, 0)

/-- The orphan-count loop of step 3: live scanned PIDs not present among the
(truthy) registered PIDs. -/
def countOrphans (live : List Nat) (registeredPids : List Nat) : Nat :=
  (live.filter (fun p => !(registeredPids.contains p))).length

/-- Step 4 for one service: build its `ServiceCheckStatus` and the issues it
contributes. Skipped entirely (all-default status) when the service is not
running. -/
def serviceStatus (portInfo : Option Nat) (probe : ProbeCall) (label : String) :
    ServiceCheckStatus × List String :=
  match portInfo with
  | none => (⟨none, false, none, none⟩, [])
  | some port =>
    match probe with
    | ProbeCall.ok r =>
      (⟨some port, r.healthy, r.responseTime, r.error⟩,
       if !r.healthy then
         [label ++ " not responding: " ++ jsOr r.error "unknown"]
       else [])
    | ProbeCall.exn m =>
      (⟨some port, false, none, some m⟩, [label ++ " check failed: " ++ m])

/-- `doImmediateCheck()`: PPID scan, registry reconciliation, service checks,
memory check, and the final snapshot; returns the result together with the
updated registry. -/
def doImmediateCheck (env : CheckEnv) (timestamp : Nat) (reg : List ProcessEntry)
    (inst : String) : ImmediateCheckResult × List ProcessEntry :=
  let claudeProcesses :=
    if env.scanOk then
      (env.children.filter (fun p => p.name == "claude" || p.name == "claude.exe")).map
        (fun p => p.pid)
    else []
  let cloudflaredProcesses :=
    if env.scanOk then
      (env.children.filter
        (fun p => p.name == "cloudflared" || p.name == "cloudflared.exe")).map
        (fun p => p.pid)
    else []
  let scanIssues : List String := if env.scanOk then [] else ["PPID scan failed"]
  let registered := getCurrentProcesses reg inst
  let registeredClaude := registered.filter (fun e => e.type == ProcessType.v2Session)
  let registeredCloudflared := registered.filter (fun e => e.type == ProcessType.tunnel)
  let step1 := removeDeadEntries registeredClaude claudeProcesses ProcessType.v2Session reg
  let step2 :=
    removeDeadEntries registeredCloudflared cloudflaredProcesses ProcessType.tunnel step1.1
  let registryRemoved := step1.2 + step2.2
  let registeredClaudePids :=
    (registeredClaude.filterMap (fun e => e.pid)).filter (fun p => p != 0)
  let registeredCloudflaredPids :=
    (registeredCloudflared.filterMap (fun e => e.pid)).filter (fun p => p != 0)
  let orphansFound :=
    countOrphans claudeProcesses registeredClaudePids +
    countOrphans cloudflaredProcesses registeredCloudflaredPids
  let cleanupIssues : List String :=
    (if 0 < registryRemoved then
      ["Cleaned " ++ toString registryRemoved ++ " dead process entries"]
     else []) ++
    (if 0 < orphansFound then
      [toString orphansFound ++ " orphan processes detected"]
     else [])
  let routerPair := serviceStatus env.routerInfo env.routerProbe "OpenAI Router"
  let httpPair :=
    serviceStatus (if env.serverRunning then some env.serverPort else none)
      env.httpProbe "HTTP Server"
  let memIssues : List String :=
    if 500 < env.heapUsedMB then
      ["High memory usage: " ++ toString env.heapUsedMB ++ "MB"]
    else []
  let issues := scanIssues ++ cleanupIssues ++ routerPair.2 ++ httpPair.2 ++ memIssues
  let updatedRegistered := getCurrentProcesses step2.1 inst
  let updatedClaudeCount :=
    (updatedRegistered.filter (fun e => e.type == ProcessType.v2Session)).length
  let updatedCloudflaredCount :=
    (updatedRegistered.filter (fun e => e.type == ProcessType.tunnel)).length
  let hasServiceIssues :=
    (env.routerInfo.isSome && !routerPair.1.responsive) ||
    (env.serverRunning && !httpPair.1.responsive)
  let healthy :=
    decide (issues.length = 0) ||
    (decide (0 < registryRemoved) && decide (issues.length = 1) && !hasServiceIssues)
  (⟨timestamp,
    ⟨updatedClaudeCount, claudeProcesses.length, claudeProcesses,
      updatedClaudeCount == claudeProcesses.length⟩,
    ⟨updatedCloudflaredCount, cloudflaredProcesses.length, cloudflaredProcesses,
      updatedCloudflaredCount == cloudflaredProcesses.length⟩,
    routerPair.1, httpPair.1, issues, healthy, ⟨registryRemoved, orphansFound⟩⟩,
   step2.1)

/-- Module state of the runtime checker relevant to `runImmediateCheck`'s
debounce/lock discipline: `lastCheckTime`, `isCheckRunning`,
`lastCheckPromise` (a promise identified by the scan that created it), and a
ghost counter of how many `doImmediateCheck` executions were started. -/
structure CheckerState where
  lastCheckTime : Option Nat
  isCheckRunning : Bool
  lastCheckPromise : Option Nat
  scanCount : Nat
  deriving DecidableEq, Repr

/-- Truthiness of `lastCheckTime` in `if (lastCheckTime && ...)`: `null` and
the number `0` are falsy. -/
def jsTruthyTime : Option Nat → Bool
  | some t => t != 0
  | none => false

/-- `MIN_CHECK_INTERVAL_MS`. -/
def MIN_CHECK_INTERVAL_MS : Nat := 2000

/-- `runImmediateCheck()`: debounce within the cool-down window, share the
in-flight promise while a check runs, otherwise start `doImmediateCheck()` —
whose synchronous prologue sets the running lock and `lastCheckTime` before
the first `await`. Returns the promise produced together with the new module
state. -/
def runImmediateCheck (now : Nat) (s : CheckerState) : Nat × CheckerState :=
  if jsTruthyTime s.lastCheckTime &&
      decide (now - s.lastCheckTime.getD 0 < MIN_CHECK_INTERVAL_MS) &&
      s.lastCheckPromise.isSome then
    (s.lastCheckPromise.getD 0, s)
  else if s.isCheckRunning && s.lastCheckPromise.isSome then
    (s.lastCheckPromise.getD 0, s)
  else
    (s.scanCount,
     { lastCheckTime := some now
       isCheckRunning := true
       lastCheckPromise := some s.scanCount
       scanCount := s.scanCount + 1 })

/-- Settlement of the in-flight `doImmediateCheck` promise: its `finally`
clears the running lock. -/
def completeCheck (s : CheckerState) : CheckerState :=
  { s with isCheckRunning := false }

/-! ## Process cleaner (`cleanupOrphans` in the process-guardian sources) -/

/-- One row of a `findByArgs` result. -/
structure ProcInfo where
  pid : Nat
  commandLine : String
  name : String
  deriving DecidableEq, Repr

/-- One entry of `CleanupResult.details`. -/
structure CleanDetail where
  pid : Nat
  type : ProcessType
  method : String
  deriving DecidableEq, Repr

/-- `CleanupResult`. -/
structure CleanupResult where
  cleaned : Nat
  failed : Nat
  details : List CleanDetail
  deriving DecidableEq, Repr

/-- External world of one `cleanupOrphans()` pass: liveness of PIDs, whether
a SIGTERM `killProcess` attempt settles successfully, and the args scan
(resolving with `argsProcs` or throwing). -/
structure CleanupEnv where
  alive : Nat → Bool
  killOk : Nat → Bool
  argsScanOk : Bool
  argsProcs : List ProcInfo

/-- `HALO_INSTANCE_PREFIX`. -/
def HALO_INSTANCE_PREFIX : String := "halo-instance="

/-- JS `String.prototype.includes` over `String`. -/
def jsIncludes (s sub : String) : Bool :=
  hasInfix sub.data s.data

/-- `inferProcessType(commandLine)`. -/
def inferProcessType (commandLine : String) : ProcessType :=
  if jsIncludes commandLine "claude" || jsIncludes commandLine "cli.js" then
    ProcessType.v2Session
  else if jsIncludes commandLine "tunnel" || jsIncludes commandLine "cloudflared" then
    ProcessType.tunnel
  else ProcessType.v2Session

/-- Phase 1 of `cleanupOrphans`: kill orphan registry entries by PID; an
entry with a falsy PID is skipped, a dead one is left to the args scan, a
successful kill is counted and recorded, a failed kill only counts. -/
def cleanupPhase1 (env : CleanupEnv) (orphans : List ProcessEntry) : CleanupResult :=
  orphans.foldl
    (fun acc e =>
      match e.pid with
      | none => acc
      | some p =>
        if p == 0 then acc
        else if env.alive p then
          if env.killOk p then
            { acc with cleaned := acc.cleaned + 1,
                       details := acc.details ++ [⟨p, e.type, "pid"⟩] }
          else { acc with failed := acc.failed + 1 }
        else acc)
    ⟨0, 0, []⟩

/-- One iteration of the phase-2 loop body. -/
def cleanupPhase2Step (env : CleanupEnv) (inst : String) (acc : CleanupResult)
    (proc : ProcInfo) : CleanupResult :=
  if jsIncludes proc.commandLine (HALO_INSTANCE_PREFIX ++ inst) then acc
  else if acc.details.any (fun d => d.pid == proc.pid) then acc
  else if !env.alive proc.pid then acc
  else if env.killOk proc.pid then
    { acc with cleaned := acc.cleaned + 1,
               details := acc.details ++
                 [⟨proc.pid, inferProcessType proc.commandLine, "args"⟩] }
  else { acc with failed := acc.failed + 1 }

/-- Phase 2 of `cleanupOrphans`: args-based fallback scan; skipped entirely
when the scan throws. -/
def cleanupPhase2 (env : CleanupEnv) (inst : String) (acc0 : CleanupResult) :
    CleanupResult :=
  if !env.argsScanOk then acc0
  else env.argsProcs.foldl (cleanupPhase2Step env inst) acc0

/-- `cleanupOrphans()`: PID-based kills, args-based fallback, then
unconditional registry cleanup; returns the result together with the updated
registry. -/
def cleanupOrphans (env : CleanupEnv) (currentInstanceId : Option String)
    (reg : List ProcessEntry) : CleanupResult × List ProcessEntry :=
  match currentInstanceId with
  | none => (⟨0, 0, []⟩, reg)
  | some inst =>
    let r1 := cleanupPhase1 env (getOrphanProcesses reg inst)
    let r2 := cleanupPhase2 env inst r1
    (r2, clearOrphanEntries reg inst)

/-! ## Config probe (`health-checker/probes/config-probe.ts`) -/

/-- A JS value sitting in a string-typed config slot: `undefined`, `null`,
or an actual string. -/
inductive JStr
  | undef
  | null
  | str (s : String)
  deriving DecidableEq, Repr

/-- `typeof x === 'string'`. -/
def JStr.isString : JStr → Bool
  | JStr.str _ => true
  | _ => false

/-- `!!(x && typeof x === 'string' && x.length > 0)` (for strings, truthiness
already implies nonemptiness, so `!!( x && typeof x === 'string')` computes
the same value). -/
def JStr.truthyString : JStr → Bool
  | JStr.str s => s != ""
  | _ => false

/-- One element of `aiSources.sources` as read by the probe. -/
structure SourceObj where
  id : JStr
  authType : JStr
  apiKey : JStr
  accessToken : JStr
  deriving DecidableEq, Repr

/-- The `aiSources` object as read by the probe: `version`, `currentId` (v2),
`current` (v1), the `sources` array, `custom?.apiKey`, and the v1 dynamic
lookup `aiSources[currentSource]?.accessToken`. -/
structure AiSourcesObj where
  version : Option Nat
  currentId : JStr
  current : JStr
  sources : Option (List SourceObj)
  customApiKey : JStr
  providerAccessToken : String → JStr

/-- The parsed config object as read by the probe. -/
structure ConfigObj where
  aiSources : Option AiSourcesObj
  permissionsIsObject : Bool

/-- `aiSources?.version === 2`. -/
def isV2 (c : ConfigObj) : Bool :=
  match c.aiSources with
  | some a => a.version == some 2
  | none => false

/-- `hasAiSourcesCurrent`: v2 checks `currentId !== undefined`, v1 checks
`typeof current === 'string'`. -/
def hasAiSourcesCurrent (c : ConfigObj) : Bool :=
  if isV2 c then
    match c.aiSources with
    | some a => !(a.currentId == JStr.undef)
    | none => false
  else
    match c.aiSources with
    | some a => a.current.isString
    | none => false

/-- `criticalFieldsPresent = !!(hasAiSourcesCurrent && hasPermissions)`. -/
def criticalFieldsPresent (c : ConfigObj) : Bool :=
  hasAiSourcesCurrent c && c.permissionsIsObject

/-- `apiKeyConfigured` as computed by the probe for v2 and v1 configs. -/
def apiKeyConfigured (c : ConfigObj) : Bool :=
  match c.aiSources with
  | none => false
  | some a =>
    if isV2 c then
      match a.sources with
      | none => false
      | some srcs =>
        match srcs.find? (fun s => s.id == a.currentId) with
        | none => false
        | some src =>
          if src.authType == JStr.str "api-key" then src.apiKey.truthyString
          else if src.authType == JStr.str "oauth" then src.accessToken.truthyString
          else false
    else
      match a.current with
      | JStr.str s =>
        if s == "custom" then a.customApiKey.truthyString
        else if s != "" then (a.providerAccessToken s).truthyString
        else false
      | _ => false

/-- State of the config file as observed by `runConfigProbe`: missing,
present but unreadable/unparsable JSON, or parsed into an object. -/
inductive ConfigFileState
  | missing
  | invalidJson (msg : String)
  | parsed (c : ConfigObj)

/-- The `data` payload of a `ConfigProbeResult`. -/
structure ConfigProbeData where
  fileExists : Bool
  jsonValid : Bool
  criticalFieldsPresent : Bool
  apiKeyConfigured : Bool
  errors : List String

/-- `ConfigProbeResult`. -/
structure ConfigProbeResult where
  name : String
  healthy : Bool
  severity : ProbeSeverity
  message : String
  data : ConfigProbeData

/-- `runConfigProbe()`. -/
def runConfigProbe (st : ConfigFileState) : ConfigProbeResult :=
  match st with
  | ConfigFileState.missing =>
    ⟨"config", false, ProbeSeverity.info,
     "Config file not found, will be created on first launch",
     ⟨false, false, false, false, ["Config file does not exist"]⟩⟩
  | ConfigFileState.invalidJson msg =>
    ⟨"config", false, ProbeSeverity.critical,
     "Config file is corrupted (invalid JSON)",
     ⟨true, false, false, false, ["JSON parse error: " ++ msg]⟩⟩
  | ConfigFileState.parsed c =>
    let cfp := criticalFieldsPresent c
    let akc := apiKeyConfigured c
    let errors : List String :=
      (if !hasAiSourcesCurrent c then
        [if isV2 c then "Missing aiSources.currentId field"
         else "Missing aiSources.current field"]
       else []) ++
      (if !c.permissionsIsObject then ["Missing permissions field"] else [])
    let healthy := cfp
    let severity :=
      if !healthy then ProbeSeverity.critical
      else if !akc then ProbeSeverity.warning
      else ProbeSeverity.info
    let message :=
      if !cfp then "Config file missing critical fields"
      else if !akc then "No API key configured"
      else "Config file is healthy"
    ⟨"config", healthy, severity, message, ⟨true, true, cfp, akc, errors⟩⟩

/-! ### Lemmas about `trimSlash` and suffixes -/

theorem dropWhile_dropWhile (p : Char → Bool) (l : List Char) :
    (l.dropWhile p).dropWhile p = l.dropWhile p := by
  induction l with
  | nil => rfl
  | cons c t ih =>
    by_cases h : p c = true
    · simp [List.dropWhile, h, ih]
    · simp [List.dropWhile, h]

theorem trimSlash_trimSlash (l : List Char) :
    trimSlash (trimSlash l) = trimSlash l := by
  unfold trimSlash
  rw [List.reverse_reverse, dropWhile_dropWhile]

/-- If a list ends in a non-slash character, `trimSlash` leaves it unchanged. -/
theorem trimSlash_append_of_last_ne (a suf : List Char) (c : Char) (t : List Char)
    (hrev : suf.reverse = c :: t) (hc : (c == '/') = false) :
    trimSlash (a ++ suf) = a ++ suf := by
  have hs : suf = t.reverse ++ [c] := by
    have := congrArg List.reverse hrev
    rw [List.reverse_reverse] at this
    simpa using this
  unfold trimSlash
  rw [List.reverse_append, hrev]
  simp [List.dropWhile, hc, hs]

theorem trimSlash_append_chat (a : List Char) :
    trimSlash (a ++ chatCompletionsSuffix) = a ++ chatCompletionsSuffix := by
  apply trimSlash_append_of_last_ne a chatCompletionsSuffix 's'
    ("noitelpmoc/tahc/".data)
  · rfl
  · rfl

theorem trimSlash_append_responses (a : List Char) :
    trimSlash (a ++ responsesSuffix) = a ++ responsesSuffix := by
  apply trimSlash_append_of_last_ne a responsesSuffix 's' ("esnopser/".data)
  · rfl
  · rfl

theorem isSuffixOf_iff_suffix (l₁ l₂ : List Char) :
    l₁.isSuffixOf l₂ = true ↔ l₁ <:+ l₂ := by
  show l₁.reverse.isPrefixOf l₂.reverse = true ↔ l₁ <:+ l₂
  rw [List.isPrefixOf_iff_prefix, List.reverse_prefix]

theorem isSuffixOf_append (suf a : List Char) :
    suf.isSuffixOf (a ++ suf) = true := by
  rw [isSuffixOf_iff_suffix]
  exact List.suffix_append a suf

/-- A list with `isSuffixOf suf = true` decomposes as `a ++ suf`. -/
theorem exists_of_isSuffixOf {suf l : List Char} (h : suf.isSuffixOf l = true) :
    ∃ a, l = a ++ suf := by
  rw [isSuffixOf_iff_suffix] at h
  obtain ⟨a, ha⟩ := h
  exact ⟨a, ha.symm⟩

/-- Every output of the OpenAI branch ends in a full endpoint. -/
theorem openaiNormalize_ends (n : List Char) :
    chatCompletionsSuffix.isSuffixOf (openaiNormalize n) = true ∨
    responsesSuffix.isSuffixOf (openaiNormalize n) = true := by
  unfold openaiNormalize
  by_cases h : (chatCompletionsSuffix.isSuffixOf n || responsesSuffix.isSuffixOf n) = true
  · rw [if_pos h]
    rcases Bool.or_eq_true_iff.mp h with h1 | h1
    · exact Or.inl h1
    · exact Or.inr h1
  · rw [if_neg h]
    exact Or.inl (isSuffixOf_append _ _)

/-- A list ending in a full endpoint is untouched by `trimSlash` and is a
fixed point of `openaiNormalize`. -/
theorem openaiNormalize_fixed (r : List Char)
    (h : chatCompletionsSuffix.isSuffixOf r = true ∨
         responsesSuffix.isSuffixOf r = true) :
    trimSlash r = r ∧ openaiNormalize r = r := by
  have htrim : trimSlash r = r := by
    rcases h with h1 | h1
    · obtain ⟨a, ha⟩ := exists_of_isSuffixOf h1
      rw [ha]
      exact trimSlash_append_chat a
    · obtain ⟨a, ha⟩ := exists_of_isSuffixOf h1
      rw [ha]
      exact trimSlash_append_responses a
  refine ⟨htrim, ?_⟩
  unfold openaiNormalize
  rw [if_pos]
  rcases h with h1 | h1
  · rw [h1]
    simp
  · rw [h1]
    simp

theorem normalizeApiUrlL_idem (u : List Char) (p : Provider) :
    normalizeApiUrlL (normalizeApiUrlL u p) p = normalizeApiUrlL u p := by
  cases p with
  | anthropic => exact trimSlash_trimSlash u
  | openai =>
    show openaiNormalize (trimSlash (openaiNormalize (trimSlash u))) =
      openaiNormalize (trimSlash u)
    obtain ⟨htrim, hfix⟩ := openaiNormalize_fixed _ (openaiNormalize_ends (trimSlash u))
    rw [htrim, hfix]

/-- C10: `normalizeApiUrl` is idempotent for both providers, and for provider
`openai` the result always ends with `/chat/completions` or `/responses` and a
second application returns it unchanged. -/
theorem normalizeApiUrl_idempotent (u : String) (p : Provider) :
    normalizeApiUrl (normalizeApiUrl u p) p = normalizeApiUrl u p ∧
    (p = Provider.openai →
      chatCompletionsSuffix.isSuffixOf (normalizeApiUrl u p).data = true ∨
      responsesSuffix.isSuffixOf (normalizeApiUrl u p).data = true) := by
  constructor
  · show (⟨normalizeApiUrlL (normalizeApiUrlL u.data p) p⟩ : String) = ⟨normalizeApiUrlL u.data p⟩
    rw [normalizeApiUrlL_idem]
  · intro hp
    subst hp
    exact openaiNormalize_ends (trimSlash u.data)

/-- Witness for C10 at the concrete input `https://api.openai.com/v1`. -/
theorem normalizeApiUrl_idempotent_witness :
    normalizeApiUrl (normalizeApiUrl "https://api.openai.com/v1" Provider.openai)
        Provider.openai =
      normalizeApiUrl "https://api.openai.com/v1" Provider.openai ∧
    (chatCompletionsSuffix.isSuffixOf
        (normalizeApiUrl "https://api.openai.com/v1" Provider.openai).data = true ∨
      responsesSuffix.isSuffixOf
        (normalizeApiUrl "https://api.openai.com/v1" Provider.openai).data = true) :=
  ⟨(normalizeApiUrl_idempotent "https://api.openai.com/v1" Provider.openai).1,
   (normalizeApiUrl_idempotent "https://api.openai.com/v1" Provider.openai).2 rfl⟩

/-- C6: `killProcess` verifies the outcome via `isProcessAlive`: it fails
exactly when the kill command errored and the process is confirmed still
alive afterward; in particular when the kill command errors but the process
is gone it succeeds, and the outcome never depends on the OS error text. -/
theorem killProcess_goal_based (env : KillEnv) (pid : Nat) :
    ((killProcess env pid).isOk = false ↔
      env.execOk = false ∧ env.aliveAfter = true) ∧
    (env.execOk = false → env.aliveAfter = false → killProcess env pid = Except.ok ()) ∧
    (∀ m₁ m₂ : String,
      killProcess { env with execErrMsg := m₁ } pid =
      killProcess { env with execErrMsg := m₂ } pid) := by
  unfold killProcess isProcessAlive
  rcases env with ⟨eo, msg, alive⟩
  cases eo <;> cases alive <;> simp [Except.isOk, Except.toBool]

/-- Witness for C6: kill command errored, process gone, `killProcess`
succeeds; the error text is irrelevant. -/
theorem killProcess_goal_based_witness :
    killProcess ⟨false, "Der Prozess wurde nicht gefunden", false⟩ 1234 =
      Except.ok () :=
  (killProcess_goal_based ⟨false, "Der Prozess wurde nicht gefunden", false⟩ 1234).2.1
    rfl rfl

/-- C8: a probe wrapped by `safeProbe` never throws past its boundary — if
the underlying call throws or times out, the result is
`healthy = true, severity = warning` rather than an error, and
`runStartupChecks` always yields all four probe results. -/
theorem safeProbe_never_throws (name : String) (now : Nat) (timedOut : Bool)
    (probeRun : Except String ProbeResult) (env : StartupEnv)
    (h : timedOut = true ∨ ∃ m, probeRun = Except.error m) :
    (safeProbe name now timedOut probeRun).healthy = true ∧
    (safeProbe name now timedOut probeRun).severity = ProbeSeverity.warning ∧
    (runStartupChecks env).probes.length = 4 := by
  refine ⟨?_, ?_, rfl⟩ <;>
  · rcases h with h | ⟨m, h⟩
    · subst h
      rfl
    · subst h
      cases timedOut <;> rfl

/-- Witness for C8: a probe whose shell call rejects yields the healthy
warning default and the startup check still carries four probe results. -/
theorem safeProbe_never_throws_witness :
    (safeProbe "config" 7 false (Except.error "spawn timed out")).healthy = true ∧
    (safeProbe "config" 7 false (Except.error "spawn timed out")).severity =
      ProbeSeverity.warning ∧
    (runStartupChecks
      ⟨7, true, Except.error "t", false, Except.error "t", false,
        Except.error "t", false, Except.error "t", true⟩).probes.length = 4 :=
  safeProbe_never_throws "config" 7 false (Except.error "spawn timed out")
    ⟨7, true, Except.error "t", false, Except.error "t", false,
      Except.error "t", false, Except.error "t", true⟩
    (Or.inr ⟨"spawn timed out", rfl⟩)

/-! ### Orchestrator lemmas -/

theorem criticalRecoveryStep_fields (env : RecoveryEnv) (s : OrchSys) (source : String) :
    (criticalRecoveryStep env s source).recentEvents = s.recentEvents ∧
    (criticalRecoveryStep env s source).consecutiveFailures = s.consecutiveFailures ∧
    (criticalRecoveryStep env s source).status = s.status ∧
    (criticalRecoveryStep env s source).isEnabled = s.isEnabled := by
  unfold criticalRecoveryStep
  rcases env.selectStrategy s.consecutiveFailures source with _ | st <;>
    cases env.canRecover <;> simp

theorem pushRecent_eq_take (e : HealthEvent) (l : List HealthEvent)
    (h : l.length ≤ 50) : pushRecent e l = (e :: l).take 50 := by
  unfold pushRecent
  by_cases h50 : l.length = 50
  · rw [if_pos (by simp [h50])]
    rw [List.dropLast_eq_take]
    simp [h50]
  · have hlt : l.length < 50 := lt_of_le_of_ne h h50
    rw [if_neg (by simp; omega)]
    rw [List.take_of_length_le (by simp; omega)]

theorem pushRecent_length_le (e : HealthEvent) (l : List HealthEvent)
    (h : l.length ≤ 50) : (pushRecent e l).length ≤ 50 := by
  rw [pushRecent_eq_take e l h]
  simp

theorem handleHealthEvent_recentEvents (env : RecoveryEnv) (s : OrchSys)
    (e : HealthEvent) :
    (handleHealthEvent env s e).recentEvents =
      if s.isEnabled then pushRecent e s.recentEvents else s.recentEvents := by
  unfold handleHealthEvent
  cases hen : s.isEnabled
  · simp
  · simp only [hen, Bool.not_true, Bool.false_eq_true, if_false, if_true]
    split_ifs <;>
      simp [criticalRecoveryStep_fields]

theorem stepOrch_recentEvents_le (env : RecoveryEnv) (s : OrchState) (i : OrchInput)
    (h : s.sys.recentEvents.length ≤ 50) :
    (stepOrch env s i).sys.recentEvents.length ≤ 50 := by
  cases i with
  | shutdown => exact h
  | event e fault =>
    simp only [stepOrch]
    by_cases hen : s.sys.isEnabled = true
    · rw [if_pos hen]
      cases fault
      · simp only [if_false, Bool.false_eq_true]
        rw [handleHealthEvent_recentEvents, if_pos hen]
        exact pushRecent_length_le e s.sys.recentEvents h
      · simp only [if_true]
        dsimp only [handleSelfErrorStep]
        split_ifs <;> exact h
    · rw [if_neg hen]
      exact h

/-- C7: `recentEvents` is a bounded most-recent-first ring — each handled
event is prepended and the oldest entry dropped past 50; under any input
sequence the length stays at most 50. -/
theorem recentEvents_bounded_ring (env : RecoveryEnv) (s : OrchSys) (e : HealthEvent)
    (hen : s.isEnabled = true) (hlen : s.recentEvents.length ≤ 50) :
    (handleHealthEvent env s e).recentEvents = (e :: s.recentEvents).take 50 ∧
    (∀ (s0 : OrchState) (l : List OrchInput), s0.sys.recentEvents.length ≤ 50 →
      (applyInputs env l s0).sys.recentEvents.length ≤ 50) := by
  constructor
  · rw [handleHealthEvent_recentEvents, if_pos hen]
    exact pushRecent_eq_take e s.recentEvents hlen
  · intro s0 l
    induction l generalizing s0 with
    | nil => exact fun h => h
    | cons i rest ih =>
      intro h
      exact ih (stepOrch env s0 i) (stepOrch_recentEvents_le env s0 i h)

/-- Witness for C7: a handled event is prepended to an empty ring. -/
theorem recentEvents_bounded_ring_witness :
    (handleHealthEvent ⟨false, fun _ _ => none⟩
        ⟨HealthStatus.healthy, 0, 0, true, []⟩
        ⟨"agent_error", EventCategory.warning, 1, "agent", "m"⟩).recentEvents =
      ([⟨"agent_error", EventCategory.warning, 1, "agent", "m"⟩] :
        List HealthEvent).take 50 ∧
    (∀ (s0 : OrchState) (l : List OrchInput), s0.sys.recentEvents.length ≤ 50 →
      (applyInputs ⟨false, fun _ _ => none⟩ l s0).sys.recentEvents.length ≤ 50) :=
  recentEvents_bounded_ring ⟨false, fun _ _ => none⟩
    ⟨HealthStatus.healthy, 0, 0, true, []⟩
    ⟨"agent_error", EventCategory.warning, 1, "agent", "m"⟩ rfl (by simp)

/-- C3 (amended): while enabled, a critical event increments
`consecutiveFailures` and sets status `unhealthy`; a warning event while
`healthy` sets status `degraded`; an info event of type `recovery_success`
or `startup_check` (the steady-state signal) resets `consecutiveFailures`
to 0 and sets status `healthy`. -/
theorem handleHealthEvent_transitions (env : RecoveryEnv) (s : OrchSys)
    (e : HealthEvent) (hen : s.isEnabled = true) :
    (e.category = EventCategory.critical →
      (handleHealthEvent env s e).consecutiveFailures = s.consecutiveFailures + 1 ∧
      (handleHealthEvent env s e).status = HealthStatus.unhealthy) ∧
    (e.category = EventCategory.warning → s.status = HealthStatus.healthy →
      (handleHealthEvent env s e).status = HealthStatus.degraded) ∧
    (e.category = EventCategory.info →
      (e.type = "recovery_success" ∨ e.type = "startup_check") →
      (handleHealthEvent env s e).consecutiveFailures = 0 ∧
      (handleHealthEvent env s e).status = HealthStatus.healthy) := by
  unfold handleHealthEvent
  simp only [hen, Bool.not_true, Bool.false_eq_true, if_false]
  refine ⟨fun hc => ?_, fun hc hh => ?_, fun hc ht => ?_⟩
  · simp only [hc]
    simp [criticalRecoveryStep_fields]
  · simp only [hc]
    simp [hh]
  · simp only [hc]
    simp [ht]

/-- Counterexample to C3 as stated: the code resets on info events of type
`recovery_success` or `startup_check`; an info event literally typed
`steady-state`, handled while enabled with `consecutiveFailures = 3` and
status `unhealthy`, leaves both unchanged instead of resetting them. -/
theorem steady_state_info_event_does_not_reset :
    (handleHealthEvent ⟨false, fun _ _ => none⟩
        ⟨HealthStatus.unhealthy, 3, 0, true, []⟩
        ⟨"steady-state", EventCategory.info, 0, "runtime", "ok"⟩).consecutiveFailures
      = 3 ∧
    (handleHealthEvent ⟨false, fun _ _ => none⟩
        ⟨HealthStatus.unhealthy, 3, 0, true, []⟩
        ⟨"steady-state", EventCategory.info, 0, "runtime", "ok"⟩).status =
      HealthStatus.unhealthy := ⟨rfl, rfl⟩

/-- Witness for C3: a critical event at 0 prior failures. -/
theorem handleHealthEvent_transitions_witness :
    (handleHealthEvent ⟨false, fun _ _ => none⟩
        ⟨HealthStatus.healthy, 0, 0, true, []⟩
        ⟨"process_exit", EventCategory.critical, 0, "p1", "exit"⟩).consecutiveFailures
      = 0 + 1 ∧
    (handleHealthEvent ⟨false, fun _ _ => none⟩
        ⟨HealthStatus.healthy, 0, 0, true, []⟩
        ⟨"process_exit", EventCategory.critical, 0, "p1", "exit"⟩).status =
      HealthStatus.unhealthy :=
  (handleHealthEvent_transitions ⟨false, fun _ _ => none⟩
    ⟨HealthStatus.healthy, 0, 0, true, []⟩
    ⟨"process_exit", EventCategory.critical, 0, "p1", "exit"⟩ rfl).1 rfl

/-- C4: five exceptions inside the orchestrator's own handling path disable
it: `isEnabled` and polling become and stay `false` (the transition is
terminal), and a disabled orchestrator performs no state update on any
further event. -/
theorem orchestrator_self_disable (env : RecoveryEnv) (s0 : OrchState)
    (e : HealthEvent) (h0 : s0.selfFailures = 0) (hen : s0.sys.isEnabled = true) :
    ((applyInputs env (List.replicate 4 (OrchInput.event e true)) s0).sys.isEnabled
        = true ∧
     (applyInputs env (List.replicate 5 (OrchInput.event e true)) s0).sys.isEnabled
        = false ∧
     (applyInputs env (List.replicate 5 (OrchInput.event e true)) s0).polling
        = false) ∧
    (∀ (s : OrchState) (i : OrchInput), s.sys.isEnabled = false →
      (stepOrch env s i).sys.isEnabled = false ∧
      (s.polling = false → (stepOrch env s i).polling = false)) ∧
    (∀ (s : OrchState) (e' : HealthEvent) (f : Bool), s.sys.isEnabled = false →
      stepOrch env s (OrchInput.event e' f) = s) ∧
    (∀ (s : OrchState) (l : List OrchInput),
      s.sys.isEnabled = false → s.polling = false →
      (applyInputs env l s).sys.isEnabled = false ∧
      (applyInputs env l s).polling = false) := by
  have hstepid : ∀ (s : OrchState) (e' : HealthEvent) (f : Bool),
      s.sys.isEnabled = false → stepOrch env s (OrchInput.event e' f) = s := by
    intro s e' f hdis
    simp only [stepOrch]
    rw [if_neg (by simp [hdis])]
  have hstep : ∀ (s : OrchState) (i : OrchInput), s.sys.isEnabled = false →
      (stepOrch env s i).sys.isEnabled = false ∧
      (s.polling = false → (stepOrch env s i).polling = false) := by
    intro s i hdis
    cases i with
    | event e' f => rw [hstepid s e' f hdis]; exact ⟨hdis, fun h => h⟩
    | shutdown => exact ⟨hdis, fun _ => rfl⟩
  refine ⟨?_, hstep, hstepid, ?_⟩
  · simp only [List.replicate, applyInputs, List.foldl]
    simp [stepOrch, handleSelfErrorStep, MAX_SELF_FAILURES, hen, h0]
  · intro s l hdis hpol
    induction l generalizing s with
    | nil => exact ⟨hdis, hpol⟩
    | cons i rest ih =>
      obtain ⟨h1, h2⟩ := hstep s i hdis
      exact ih (stepOrch env s i) h1 (h2 hpol)

/-- Witness for C4 at a concrete initial state and event. -/
theorem orchestrator_self_disable_witness :
    (applyInputs ⟨false, fun _ _ => none⟩
        (List.replicate 5 (OrchInput.event ⟨"agent_error", EventCategory.critical,
          0, "agent", "boom"⟩ true))
        ⟨⟨HealthStatus.healthy, 0, 0, true, []⟩, 0, true⟩).sys.isEnabled = false ∧
    (applyInputs ⟨false, fun _ _ => none⟩
        (List.replicate 5 (OrchInput.event ⟨"agent_error", EventCategory.critical,
          0, "agent", "boom"⟩ true))
        ⟨⟨HealthStatus.healthy, 0, 0, true, []⟩, 0, true⟩).polling = false :=
  ⟨((orchestrator_self_disable ⟨false, fun _ _ => none⟩
      ⟨⟨HealthStatus.healthy, 0, 0, true, []⟩, 0, true⟩
      ⟨"agent_error", EventCategory.critical, 0, "agent", "boom"⟩ rfl rfl).1).2.1,
   ((orchestrator_self_disable ⟨false, fun _ _ => none⟩
      ⟨⟨HealthStatus.healthy, 0, 0, true, []⟩, 0, true⟩
      ⟨"agent_error", EventCategory.critical, 0, "agent", "boom"⟩ rfl rfl).1).2.2⟩

theorem serviceStatus_port (pi : Option Nat) (pr : ProbeCall) (lbl : String) :
    (serviceStatus pi pr lbl).1.port = pi := by
  cases pi <;> cases pr <;> rfl

/-- The `healthy` line of `doImmediateCheck`, as a boolean/propositional
equivalence over its ingredients. -/
theorem healthy_formula_iff (issues : List String) (removed : Nat)
    (ri : Option Nat) (sr : Bool) (port : Nat) (resp1 resp2 : Bool) :
    (decide (issues.length = 0) ||
      (decide (0 < removed) && decide (issues.length = 1) &&
        !((ri.isSome && !resp1) || (sr && !resp2)))) = true ↔
    (issues = [] ∨
      (0 < removed ∧ issues.length = 1 ∧
        ¬((ri.isSome = true ∧ resp1 = false) ∨
          ((if sr = true then some port else none : Option Nat).isSome = true ∧
            resp2 = false)))) := by
  cases ri <;> cases sr <;> cases resp1 <;> cases resp2 <;>
    simp [List.length_eq_zero]

/-- C1: the snapshot's healthy flag is true exactly when the issue list is
empty, or when the only issue is a successful dead-entry cleanup
(`removed > 0`, one issue) with no service-responsiveness failures; for a
current-instance registry entry whose PID is not among the live scanned
children, the check removes the entry, reports `removed = 1`, and stays
healthy. -/
theorem immediateCheck_healthy_iff :
    (∀ (env : CheckEnv) (ts : Nat) (reg : List ProcessEntry) (inst : String),
      ((doImmediateCheck env ts reg inst).1.healthy = true ↔
        ((doImmediateCheck env ts reg inst).1.issues = [] ∨
         (0 < (doImmediateCheck env ts reg inst).1.registryCleanup.removed ∧
          (doImmediateCheck env ts reg inst).1.issues.length = 1 ∧
          ¬(((doImmediateCheck env ts reg inst).1.openaiRouter.port.isSome = true ∧
             (doImmediateCheck env ts reg inst).1.openaiRouter.responsive = false) ∨
            ((doImmediateCheck env ts reg inst).1.httpServer.port.isSome = true ∧
             (doImmediateCheck env ts reg inst).1.httpServer.responsive = false)))))) ∧
    ((doImmediateCheck
        ⟨true, [], none, ProbeCall.ok ⟨true, none, none⟩, false, 0,
          ProbeCall.ok ⟨true, none, none⟩, 100⟩ 5
        [⟨"c1", some 1234, ProcessType.v2Session, "inst", 0⟩]
        "inst").1.registryCleanup.removed = 1 ∧
     (doImmediateCheck
        ⟨true, [], none, ProbeCall.ok ⟨true, none, none⟩, false, 0,
          ProbeCall.ok ⟨true, none, none⟩, 100⟩ 5
        [⟨"c1", some 1234, ProcessType.v2Session, "inst", 0⟩]
        "inst").1.healthy = true ∧
     (doImmediateCheck
        ⟨true, [], none, ProbeCall.ok ⟨true, none, none⟩, false, 0,
          ProbeCall.ok ⟨true, none, none⟩, 100⟩ 5
        [⟨"c1", some 1234, ProcessType.v2Session, "inst", 0⟩]
        "inst").2 = []) := by
  constructor
  · intro env ts reg inst
    have hport1 : (doImmediateCheck env ts reg inst).1.openaiRouter.port = env.routerInfo :=
      serviceStatus_port env.routerInfo env.routerProbe "OpenAI Router"
    have hport2 : (doImmediateCheck env ts reg inst).1.httpServer.port =
        (if env.serverRunning then some env.serverPort else none) :=
      serviceStatus_port (if env.serverRunning then some env.serverPort else none)
        env.httpProbe "HTTP Server"
    rw [hport1, hport2]
    exact healthy_formula_iff
      ((doImmediateCheck env ts reg inst).1.issues)
      ((doImmediateCheck env ts reg inst).1.registryCleanup.removed)
      env.routerInfo env.serverRunning env.serverPort
      ((doImmediateCheck env ts reg inst).1.openaiRouter.responsive)
      ((doImmediateCheck env ts reg inst).1.httpServer.responsive)
  · exact ⟨rfl, rfl, rfl⟩

/-- C2: `runImmediateCheck` is single-flight with a cool-down — starting from
an idle checker, a second call within 500ms (inside the 2s window, whether or
not the first check has settled) returns the identical in-flight promise,
leaves the state untouched, and exactly one underlying scan was started. -/
theorem runImmediateCheck_single_flight (s0 : CheckerState) (t1 t2 : Nat)
    (h0 : s0.lastCheckTime = none) (hp : s0.lastCheckPromise = none)
    (h1 : 0 < t1) (hwin : t2 - t1 < 500) :
    runImmediateCheck t2 (runImmediateCheck t1 s0).2 =
      ((runImmediateCheck t1 s0).1, (runImmediateCheck t1 s0).2) ∧
    runImmediateCheck t2 (completeCheck (runImmediateCheck t1 s0).2) =
      ((runImmediateCheck t1 s0).1, completeCheck (runImmediateCheck t1 s0).2) ∧
    (runImmediateCheck t1 s0).2.scanCount = s0.scanCount + 1 := by
  have hfirst : runImmediateCheck t1 s0 =
      (s0.scanCount,
       { lastCheckTime := some t1
         isCheckRunning := true
         lastCheckPromise := some s0.scanCount
         scanCount := s0.scanCount + 1 }) := by
    unfold runImmediateCheck
    rw [if_neg (by simp [h0, jsTruthyTime]), if_neg (by simp [hp])]
  have ht1 : (t1 != 0) = true := by
    simp only [bne_iff_ne, ne_eq, decide_eq_true_iff]
    omega
  have hdec : decide (t2 - t1 < MIN_CHECK_INTERVAL_MS) = true :=
    decide_eq_true (by unfold MIN_CHECK_INTERVAL_MS; omega)
  rw [hfirst]
  refine ⟨?_, ?_, rfl⟩
  · simp [runImmediateCheck, jsTruthyTime, ht1, hdec]
  · simp [runImmediateCheck, completeCheck, jsTruthyTime, ht1, hdec]

/-- Witness for C2 at concrete times 100 and 400. -/
theorem runImmediateCheck_single_flight_witness :
    runImmediateCheck 400 (runImmediateCheck 100 ⟨none, false, none, 0⟩).2 =
      ((runImmediateCheck 100 ⟨none, false, none, 0⟩).1,
       (runImmediateCheck 100 ⟨none, false, none, 0⟩).2) ∧
    runImmediateCheck 400
        (completeCheck (runImmediateCheck 100 ⟨none, false, none, 0⟩).2) =
      ((runImmediateCheck 100 ⟨none, false, none, 0⟩).1,
       completeCheck (runImmediateCheck 100 ⟨none, false, none, 0⟩).2) ∧
    (runImmediateCheck 100 ⟨none, false, none, 0⟩).2.scanCount = 0 + 1 :=
  runImmediateCheck_single_flight ⟨none, false, none, 0⟩ 100 400 rfl rfl
    (by decide) (by decide)

theorem cleanupPhase2Step_skip (env : CleanupEnv) (inst : String) (p : ProcInfo)
    (h : jsIncludes p.commandLine (HALO_INSTANCE_PREFIX ++ inst) = true ∨
         env.alive p.pid = false) :
    cleanupPhase2Step env inst ⟨0, 0, []⟩ p = ⟨0, 0, []⟩ := by
  unfold cleanupPhase2Step
  by_cases h1 : jsIncludes p.commandLine (HALO_INSTANCE_PREFIX ++ inst) = true
  · rw [if_pos h1]
  · rcases h with h | h
    · exact absurd h h1
    · rw [if_neg h1]
      simp [h]

theorem cleanupPhase2_foldl_skip (env : CleanupEnv) (inst : String)
    (l : List ProcInfo)
    (h : ∀ p ∈ l, jsIncludes p.commandLine (HALO_INSTANCE_PREFIX ++ inst) = true ∨
      env.alive p.pid = false) :
    l.foldl (cleanupPhase2Step env inst) ⟨0, 0, []⟩ = ⟨0, 0, []⟩ := by
  induction l with
  | nil => rfl
  | cons p rest ih =>
    rw [List.foldl_cons, cleanupPhase2Step_skip env inst p (h p (by simp))]
    exact ih (fun q hq => h q (by simp [hq]))

/-- C5: `cleanupOrphans` removes every orphan registry entry regardless of
kill outcomes, and a pass with nothing left to clean returns
`{cleaned: 0, failed: 0}` and leaves the registry unchanged. -/
theorem cleanupOrphans_clears_and_idempotent :
    (∀ (env : CleanupEnv) (inst : String) (reg : List ProcessEntry),
      ∀ e ∈ (cleanupOrphans env (some inst) reg).2, e.instanceId = inst) ∧
    (∀ (env : CleanupEnv) (inst : String) (reg : List ProcessEntry),
      (∀ e ∈ reg, e.instanceId = inst) →
      (env.argsScanOk = true →
        ∀ p ∈ env.argsProcs,
          jsIncludes p.commandLine (HALO_INSTANCE_PREFIX ++ inst) = true ∨
          env.alive p.pid = false) →
      (cleanupOrphans env (some inst) reg).1 = ⟨0, 0, []⟩ ∧
      (cleanupOrphans env (some inst) reg).2 = reg) := by
  constructor
  · intro env inst reg e he
    simp only [cleanupOrphans, clearOrphanEntries, List.mem_filter] at he
    exact beq_iff_eq.mp he.2
  · intro env inst reg hall hscan
    have horph : getOrphanProcesses reg inst = [] := by
      unfold getOrphanProcesses
      refine List.filter_eq_nil_iff.mpr (fun e he => ?_)
      simp [hall e he]
    have hclear : clearOrphanEntries reg inst = reg := by
      unfold clearOrphanEntries
      refine List.filter_eq_self.mpr (fun e he => ?_)
      simp [hall e he]
    refine ⟨?_, ?_⟩
    · show cleanupPhase2 env inst (cleanupPhase1 env (getOrphanProcesses reg inst)) =
        ⟨0, 0, []⟩
      rw [horph]
      show cleanupPhase2 env inst ⟨0, 0, []⟩ = ⟨0, 0, []⟩
      unfold cleanupPhase2
      cases hsc : env.argsScanOk
      · simp
      · simp only [Bool.not_true, Bool.false_eq_true, if_false]
        exact cleanupPhase2_foldl_skip env inst env.argsProcs (hscan hsc)
    · show clearOrphanEntries reg inst = reg
      exact hclear

/-- Witness for C5: a registry holding only current-instance entries and an
args scan finding nothing alive from other instances. -/
theorem cleanupOrphans_clears_and_idempotent_witness :
    (cleanupOrphans ⟨fun _ => false, fun _ => false, false, []⟩ (some "i")
        [⟨"a", some 3, ProcessType.v2Session, "i", 0⟩]).1 = ⟨0, 0, []⟩ ∧
    (cleanupOrphans ⟨fun _ => false, fun _ => false, false, []⟩ (some "i")
        [⟨"a", some 3, ProcessType.v2Session, "i", 0⟩]).2 =
      [⟨"a", some 3, ProcessType.v2Session, "i", 0⟩] :=
  cleanupOrphans_clears_and_idempotent.2
    ⟨fun _ => false, fun _ => false, false, []⟩ "i"
    [⟨"a", some 3, ProcessType.v2Session, "i", 0⟩]
    (by intro e he; simp at he; rw [he])
    (by intro h p hp; simp at hp)

/-- C9: `runConfigProbe` classification — missing file is `info`, invalid
JSON is `critical`, missing schema-critical fields is `critical`, and a
valid config with no credentials for the active source is `warning`. -/
theorem runConfigProbe_classification :
    (runConfigProbe ConfigFileState.missing).severity = ProbeSeverity.info ∧
    (∀ m : String,
      (runConfigProbe (ConfigFileState.invalidJson m)).severity =
        ProbeSeverity.critical) ∧
    (∀ c : ConfigObj, criticalFieldsPresent c = false →
      (runConfigProbe (ConfigFileState.parsed c)).severity =
        ProbeSeverity.critical) ∧
    (∀ c : ConfigObj, criticalFieldsPresent c = true → apiKeyConfigured c = false →
      (runConfigProbe (ConfigFileState.parsed c)).severity =
        ProbeSeverity.warning) := by
  refine ⟨rfl, fun m => rfl, fun c h => ?_, fun c h1 h2 => ?_⟩
  · simp [runConfigProbe, h]
  · simp [runConfigProbe, h1, h2]

/-- Witness for C9: a v2 config with current source selected, permissions
present, `api-key` auth and an empty key — severity `warning`. -/
theorem runConfigProbe_classification_witness :
    (runConfigProbe (ConfigFileState.parsed
        ⟨some ⟨some 2, JStr.str "s1", JStr.undef,
          some [⟨JStr.str "s1", JStr.str "api-key", JStr.str "", JStr.undef⟩],
          JStr.undef, fun _ => JStr.undef⟩, true⟩)).severity =
      ProbeSeverity.warning :=
  runConfigProbe_classification.2.2.2
    ⟨some ⟨some 2, JStr.str "s1", JStr.undef,
      some [⟨JStr.str "s1", JStr.str "api-key", JStr.str "", JStr.undef⟩],
      JStr.undef, fun _ => JStr.undef⟩, true⟩
    rfl rfl

end HelloHalo
